import Mathlib

/-!
A shallow embedding of the retrieval core of the Telegram study bot
(`src/rag.py` and `src/scraper.py`).

External library calls (PDF-to-markdown conversion, the markdown header
splitter, embedding computation, the BM25 / Chroma retrievers) are modelled
as abstract inputs or as event traces; the repository's own control flow and
data manipulation are translated directly.
-/

namespace StudyBot

/-- Python's `str.split(sep)` on a single separator character, on the
underlying character list.  `"".split("/") = [""]`, `"a//b".split("/") =
["a", "", "b"]`. -/
def splitOnCharList (c : Char) : List Char → List (List Char)
  | [] => [[]]
  | x :: xs =>
    match splitOnCharList c xs, decide (x = c) with
    | r, true => [] :: r
    | [], false => [[x]]
    | y :: ys, false => (x :: y) :: ys

/-- Python's `str.split(sep)` for a one-character separator. -/
def pySplit (c : Char) (s : String) : List String :=
  (splitOnCharList c s.data).map String.mk

/-- `os.path.basename` for forward-slash paths: the part after the last
separator. -/
def basename (path : String) : String :=
  (pySplit '/' path).getLastD ""

/-! ## `scraper.make_download_link` (src/scraper.py lines 10-20) -/

/-- `make_download_link` from `src/scraper.py`.  Python's falsy `link`
check is the empty-string check; returning `False` is modelled as `none`,
returning the URL string as `some`.  `List.indexOf` models Python's
`list.index`, the index of the first occurrence, and is only consulted
after the `"d" in link_elems` membership guard, exactly as in the source. -/
def make_download_link (link : String) : Option String :=
  if link = "" then none
  else
    let link_elems := pySplit '/' link
    if "d" ∈ link_elems then
      let uid_index := List.indexOf "d" link_elems + 1
      if h : uid_index < link_elems.length then
        some ("https://drive.google.com/uc?export=download&id=" ++ link_elems.get ⟨uid_index, h⟩)
      else none
    else none

/-! ## Chunking: `rag.pdf_2_md` (src/rag.py lines 17-44) -/

/-- One element of the markdown splitter's output: `page_content` plus the
metadata fields `pdf_2_md` reads (`chunk.metadata.get("page", -1)` and
`chunk.metadata.get("type", "unknown")`, modelled as options with those
defaults applied at the read site). -/
structure RawChunk where
  page_content : String
  page : Option Int
  type : Option String
deriving DecidableEq

/-- A LangChain `Document` as `pdf_2_md` constructs it: `page_content`
plus the metadata dict written at src/rag.py lines 32-41. -/
structure Doc where
  page_content : String
  source : String
  page_number : Int
  type : String
  chunk_id : String
  subject_code : String
deriving DecidableEq

/-- The `Document` built for the chunk at index `i` of the splitter output
(the body of the `for i, chunk in enumerate(md_file)` loop). -/
def mdDoc (sub_code pdf_filename : String) (i : Nat) (chunk : RawChunk) : Doc :=
  { page_content := chunk.page_content
    source := pdf_filename
    page_number := chunk.page.getD (-1) + 1
    type := chunk.type.getD "unknown"
    chunk_id := sub_code ++ "_" ++ pdf_filename ++ "_chunk_" ++ toString i
    subject_code := sub_code }

/-- The `enumerate` loop of `pdf_2_md`, carrying the running index. -/
def buildDocs (sub_code pdf_filename : String) : Nat → List RawChunk → List Doc
  | _, [] => []
  | i, c :: cs => mdDoc sub_code pdf_filename i c :: buildDocs sub_code pdf_filename (i + 1) cs

/-- `pdf_2_md` from `src/rag.py`.  The external pipeline
`pymupdf4llm.to_markdown` followed by `MarkdownHeaderTextSplitter.split_text`
is abstracted as the `parsed` argument: `Except.error` is the raised
exception (caught, `return None`), `Except.ok md_file` the splitter's chunk
list. -/
def pdf_2_md (path sub_code : String) (parsed : Except String (List RawChunk)) :
    Option (List Doc) :=
  match parsed with
  | Except.error _ => none
  | Except.ok md_file => some (buildDocs sub_code (basename path) 0 md_file)

/-! ## The module-level retrieval state (src/rag.py lines 47-51)

The globals `ensemble_retriever`, `vector_store` and `all_documents`.  The
Chroma store is modelled by the ordered list of documents whose embeddings
it holds; `vector_store = None` is `Option.none`.  Since the code always
opens the store at the single directory `"vector_db"`, the in-memory handle
and the persisted collection coincide and are modelled together.  Embedding
computation is recorded as an event trace: each call to
`Chroma.from_documents` / `vector_store.add_documents(docs)` embeds exactly
its `docs` argument, so a call's trace is the concatenation of those
arguments. -/

/-- The Chroma vector store: the documents embedded into the persisted
collection, in insertion order. -/
structure VStore where
  entries : List Doc
deriving DecidableEq

/-- `vector_store.add_documents(docs)`: append, embedding only `docs`. -/
def VStore.add_documents (vs : VStore) (docs : List Doc) : VStore :=
  ⟨vs.entries ++ docs⟩

/-- The mutable module state of `src/rag.py`: `all_documents`,
`vector_store`, and whether `ensemble_retriever` is set. -/
structure RagState where
  all_documents : List Doc
  vector_store : Option VStore
  ensemble_built : Bool
deriving DecidableEq

/-- The state at module import before any documents exist
(src/rag.py lines 47-51). -/
def initState : RagState :=
  { all_documents := [], vector_store := none, ensemble_built := false }

/-- `build_ensemble_retriever` from `src/rag.py` (lines 53-95), successful
path.  With an empty `all_documents` it returns `None` leaving the state
alone; otherwise it builds BM25 over `all_documents` and calls
`Chroma.from_documents(documents=all_documents, persist_directory="vector_db")`,
which embeds every document of `all_documents` and adds the embeddings to
whatever the persisted collection already holds.  Returns the new state and
the list of documents embedded during the call. -/
def build_ensemble_retriever (s : RagState) : RagState × List Doc :=
  if s.all_documents.isEmpty then (s, [])
  else
    let prior := match s.vector_store with
      | some vs => vs.entries
      | none => []
    ({ all_documents := s.all_documents
       vector_store := some ⟨prior ++ s.all_documents⟩
       ensemble_built := true },
     s.all_documents)

/-! ## Persistence: `save_documents` (src/rag.py lines 97-102)

`save_documents` is modelled by the trace of file-system operations it
performs, and a small file-system semantics interprets a trace so that what
a concurrent `load` would observe after each step can be stated. -/

/-- A file-system operation.  `open(path, "wb")` truncates the file at
`path` (modelled as `openTrunc`); `pickle.dump` then streams the payload
(`writeChunk`); leaving the `with` block closes the handle. -/
inductive FsOp where
  | openTrunc (path : String)
  | writeChunk (path : String) (content : List Doc)
  | closeFile (path : String)
  | rename (src dst : String)
deriving DecidableEq

/-- The snapshot path `"all_documents.pkl"` used by `save_documents` and
`load_documents`. -/
def snapshot_path : String := "all_documents.pkl"

/-- `save_documents` from `src/rag.py`: `with open("all_documents.pkl",
"wb") as f: pickle.dump(all_documents, f)` — an in-place truncating write
of the snapshot at its final path. -/
def save_documents (all_documents : List Doc) : List FsOp :=
  [FsOp.openTrunc snapshot_path,
   FsOp.writeChunk snapshot_path all_documents,
   FsOp.closeFile snapshot_path]

/-- Interpret one file-system operation on a map from path to content
(`none` = file absent). -/
def applyFsOp (fs : String → Option (List Doc)) : FsOp → String → Option (List Doc)
  | FsOp.openTrunc p => fun q => if q = p then some [] else fs q
  | FsOp.writeChunk p d => fun q => if q = p then some ((fs p).getD [] ++ d) else fs q
  | FsOp.closeFile _ => fs
  | FsOp.rename src dst => fun q =>
      if q = dst then fs src else if q = src then none else fs q

/-- Run a trace of file-system operations. -/
def runFs (fs : String → Option (List Doc)) (ops : List FsOp) : String → Option (List Doc) :=
  ops.foldl applyFsOp fs

/-! ## `add_to_vdb` (src/rag.py lines 132-150) and corpus operations -/

/-- `add_to_vdb` from `src/rag.py`: extend `all_documents`, add the new
documents to the vector store when one exists, `save_documents()`, then
`build_ensemble_retriever()`.  Returns the new state together with the
trace of documents whose embeddings were computed during the call. -/
def add_to_vdb (s : RagState) (documents : List Doc) : RagState × List Doc :=
  let s1 : RagState := { s with all_documents := s.all_documents ++ documents }
  let step2 : RagState × List Doc :=
    match s1.vector_store with
    | some vs => ({ s1 with vector_store := some (vs.add_documents documents) }, documents)
    | none => (s1, [])
  let step3 := build_ensemble_retriever step2.1
  (step3.1, step2.2 ++ step3.2)

/-- `clear_all_vector_dbs` from `src/rag.py` (lines 259-291): reset all
globals and delete the persisted artifacts. -/
def clear_all_vector_dbs : RagState :=
  { all_documents := [], vector_store := none, ensemble_built := false }

/-- A corpus-mutating operation of `src/rag.py`: an `add_to_vdb` call (as
issued per file by `add_to_db` / `recreate_vector_dbs_from_notes`) or a
`clear_all_vector_dbs` call.  `recreate_vector_dbs_from_notes` is `clear`
followed by a sequence of `add`s. -/
inductive RagOp where
  | add (docs : List Doc)
  | clear
deriving DecidableEq

/-- Apply one corpus operation to the module state. -/
def applyOp (s : RagState) : RagOp → RagState
  | RagOp.add docs => (add_to_vdb s docs).1
  | RagOp.clear => clear_all_vector_dbs

/-- Run a sequence of corpus operations from a starting state. -/
def runOps (s : RagState) (ops : List RagOp) : RagState :=
  ops.foldl applyOp s

/-- The chunk ids currently in the corpus. -/
def corpusIds (s : RagState) : List String :=
  s.all_documents.map Doc.chunk_id

/-! ## `get_context` (src/rag.py lines 152-195)

The two retrieval calls are abstracted as their outcomes:
`none` models a `None`/falsy `ensemble_retriever` or `vector_store` global,
`some (Except.error e)` a call that raises, `some (Except.ok docs)` a call
returning a document list.  The result type `Except String String` records
whether `get_context` itself raises (`Except.error`) or returns a string
(`Except.ok`); the source's `try`/`except Exception` blocks become matches
on the outcome argument. -/

/-- The context-accumulation loop of `get_context`: starting from
`context = ""`, for each retrieved `doc` append
`"\n" + doc.page_content + "..." + "\n\n"`. -/
def mkContext (docs : List Doc) : String :=
  docs.foldl (fun context doc => context ++ ("\n" ++ (doc.page_content ++ "...") ++ "\n\n")) ""

/-- `get_context` from `src/rag.py`.  `ensembleCall` is the outcome of
`ensemble_retriever.get_relevant_documents(query)` (or `none` when the
global is `None`); `vectorCall` the outcome of
`vector_store.similarity_search(query, k=10)` likewise. -/
def get_context (use_ensemble : Bool)
    (ensembleCall : Option (Except String (List Doc)))
    (vectorCall : Option (Except String (List Doc))) : Except String String :=
  let vector_branch : Except String String :=
    match vectorCall with
    | some (Except.ok docs) => Except.ok (mkContext docs)
    | some (Except.error _) => Except.ok ""
    | none => Except.ok ""
  match use_ensemble, ensembleCall with
  | true, some (Except.ok retrieved_docs) => Except.ok (mkContext retrieved_docs)
  | true, some (Except.error _) => vector_branch
  | true, none => vector_branch
  | false, _ => vector_branch

/-! ## Concrete sample data (the spec's "networks.pdf" scenario) -/

/-- Splitter output for the spec's concrete scenario document. -/
def sampleChunks : List RawChunk :=
  [{ page_content := "C1: intro to TCP", page := none, type := none },
   { page_content := "C2: IP addressing", page := none, type := none }]

/-- The chunks `pdf_2_md` produces for `networks.pdf` in collection
`CS101`. -/
def sampleDocs : List Doc := buildDocs "CS101" "networks.pdf" 0 sampleChunks

/-- Chunks of a second, distinct source file. -/
def otherDocs : List Doc :=
  buildDocs "CS101" "routing.pdf" 0 [{ page_content := "C3: routing tables", page := none, type := none }]

/-- The module state after ingesting `networks.pdf` once into a fresh
store. -/
def stateAfterFirstAdd : RagState := runOps initState [RagOp.add sampleDocs]

/-- A single chunk, used to exhibit duplicate texts in a retrieval list. -/
def dupDoc : Doc :=
  mdDoc "CS101" "networks.pdf" 0 { page_content := "C1: intro to TCP", page := none, type := none }

/-- A file system whose snapshot file currently holds an older corpus. -/
def oldSnapshotFs : String → Option (List Doc) :=
  fun q => if q = snapshot_path then some otherDocs else none

/-- Recognizer for rename operations in a file-system trace. -/
def isRenameOp : FsOp → Bool
  | FsOp.rename _ _ => true
  | _ => false

/-! ## Helper lemmas -/

theorem mem_dropLast_iff {α : Type} (a : α) (l : List α) :
    a ∈ l.dropLast ↔ ∃ i : Nat, i + 1 < l.length ∧ l[i]? = some a := by
  rw [List.mem_iff_getElem]
  constructor
  · rintro ⟨n, hn, hget⟩
    have hlen : n + 1 < l.length := by
      have hl := List.length_dropLast l
      omega
    refine ⟨n, hlen, ?_⟩
    rw [List.getElem_dropLast] at hget
    rw [List.getElem?_eq_getElem (by omega), hget]
  · rintro ⟨i, hi, hget⟩
    have h1 : i < l.dropLast.length := by rw [List.length_dropLast]; omega
    refine ⟨i, h1, ?_⟩
    rw [List.getElem_dropLast]
    rw [List.getElem?_eq_some] at hget
    exact hget.2

theorem indexOf_le_of_getElem? {α : Type} [DecidableEq α] {a : α} :
    ∀ (l : List α) (i : Nat), l[i]? = some a → List.indexOf a l ≤ i
  | [], i, h => by simp at h
  | b :: t, 0, h => by
      simp at h
      simp [h, List.indexOf_cons_self]
  | b :: t, i + 1, h => by
      by_cases hb : b = a
      · simp [hb, List.indexOf_cons_self]
      · rw [List.indexOf_cons_ne t hb]
        have := indexOf_le_of_getElem? t i (by simpa using h)
        omega

theorem build_ensemble_retriever_all_documents (s : RagState) :
    (build_ensemble_retriever s).1.all_documents = s.all_documents := by
  unfold build_ensemble_retriever
  split <;> rfl

theorem add_to_vdb_all_documents (s : RagState) (docs : List Doc) :
    (add_to_vdb s docs).1.all_documents = s.all_documents ++ docs := by
  obtain ⟨ad, vs, eb⟩ := s
  cases vs <;> simp [add_to_vdb, build_ensemble_retriever_all_documents]

theorem mkContext_eq_join (docs : List Doc) :
    mkContext docs =
      String.join (docs.map fun d => "\n" ++ (d.page_content ++ "...") ++ "\n\n") := by
  unfold mkContext String.join
  rw [List.foldl_map]

/-! ## Claim theorems -/

/-- Claim C10: `make_download_link` returns the Google Drive direct-download
URL `https://drive.google.com/uc?export=download&id=<file_id>` exactly when
the link is non-empty and, split on `/`, contains a segment `"d"` followed
by at least one more segment (membership in `dropLast`), the file id being
the segment right after the first `"d"`; every other input yields `False`
(here `none`). -/
theorem make_download_link_characterization (link : String) :
    ((make_download_link link).isSome ↔
      link ≠ "" ∧ "d" ∈ (pySplit '/' link).dropLast) ∧
    (∀ s : String, make_download_link link = some s →
      s = "https://drive.google.com/uc?export=download&id=" ++
        ((pySplit '/' link)[List.indexOf "d" (pySplit '/' link) + 1]?).getD "") := by
  by_cases hlink : link = ""
  · simp [make_download_link, hlink]
  · by_cases hd : "d" ∈ pySplit '/' link
    · by_cases hidx : List.indexOf "d" (pySplit '/' link) + 1 < (pySplit '/' link).length
      · constructor
        · simp only [make_download_link, if_neg hlink, if_pos hd, dif_pos hidx,
            Option.isSome_some, true_iff]
          refine ⟨hlink, (mem_dropLast_iff "d" (pySplit '/' link)).mpr ?_⟩
          refine ⟨List.indexOf "d" (pySplit '/' link), hidx, ?_⟩
          rw [List.getElem?_eq_getElem (by omega)]
          rw [List.getElem_indexOf (by omega)]
        · intro s hs
          simp only [make_download_link, if_neg hlink, if_pos hd, dif_pos hidx,
            Option.some.injEq] at hs
          rw [← hs, List.get_eq_getElem, List.getElem?_eq_getElem hidx]
          rfl
      · have hnone : make_download_link link = none := by
          simp only [make_download_link, if_neg hlink, if_pos hd, dif_neg hidx]
        constructor
        · rw [hnone]
          constructor
          · intro hsome; simp at hsome
          · rintro ⟨-, hmem⟩
            exfalso
            rcases (mem_dropLast_iff "d" (pySplit '/' link)).mp hmem with ⟨i, hi, hget⟩
            exact hidx (by have := indexOf_le_of_getElem? (pySplit '/' link) i hget; omega)
        · intro s hs
          rw [hnone] at hs
          simp at hs
    · have hnone : make_download_link link = none := by
        simp only [make_download_link, if_neg hlink, if_neg hd]
      constructor
      · rw [hnone]
        constructor
        · intro hsome; simp at hsome
        · rintro ⟨-, hmem⟩
          exfalso
          rcases (mem_dropLast_iff "d" (pySplit '/' link)).mp hmem with ⟨i, hi, hget⟩
          exact hd (List.mem_iff_getElem.mpr ⟨i, (List.getElem?_eq_some.mp hget).1,
            (List.getElem?_eq_some.mp hget).2⟩)
      · intro s hs
        rw [hnone] at hs
        simp at hs

/-- Claim C10 witness: a standard Drive share link is rewritten to the
direct-download URL, via `make_download_link_characterization`. -/
theorem make_download_link_characterization_witness :
    (make_download_link "https://drive.google.com/file/d/ABC/view").isSome ∧
    "https://drive.google.com/uc?export=download&id=ABC" =
      "https://drive.google.com/uc?export=download&id=" ++
        ((pySplit '/' "https://drive.google.com/file/d/ABC/view")[
          List.indexOf "d" (pySplit '/' "https://drive.google.com/file/d/ABC/view") + 1]?).getD "" :=
  ⟨(make_download_link_characterization "https://drive.google.com/file/d/ABC/view").1.mpr
      ⟨by decide, by decide⟩,
   (make_download_link_characterization "https://drive.google.com/file/d/ABC/view").2
      "https://drive.google.com/uc?export=download&id=ABC" (by decide)⟩

/-- `buildDocs` yields one document per splitter chunk. -/
theorem buildDocs_length (sc f : String) :
    ∀ (l : List RawChunk) (n : Nat), (buildDocs sc f n l).length = l.length
  | [], _ => rfl
  | _ :: cs, n => by simpa [buildDocs] using buildDocs_length sc f cs (n + 1)

/-- The document built for position `i` of the splitter output. -/
theorem buildDocs_getElem? (sc f : String) :
    ∀ (l : List RawChunk) (n i : Nat),
      (buildDocs sc f n l)[i]? = (l[i]?).map fun c => mdDoc sc f (n + i) c
  | [], n, i => by simp [buildDocs]
  | c :: cs, n, 0 => by simp [buildDocs]
  | c :: cs, n, i + 1 => by
      have ih := buildDocs_getElem? sc f cs (n + 1) i
      simpa [buildDocs, Nat.add_assoc, Nat.add_comm, Nat.add_left_comm] using ih

/-- Claim C8: chunking is deterministic; `pdf_2_md` assigns the chunk at
position `i` the id `<collection>_<basename of path>_chunk_<i>`, a pure
function of the collection code, the source filename and the sequence
number, hence identical across re-ingestion of the same file; it yields one
document per splitter chunk. -/
theorem pdf_2_md_chunk_id_format (path sub_code : String) (md_file : List RawChunk)
    (docs : List Doc) (h : pdf_2_md path sub_code (Except.ok md_file) = some docs) :
    docs.length = md_file.length ∧
    ∀ (i : Nat) (d : Doc), docs[i]? = some d →
      d.chunk_id = sub_code ++ "_" ++ basename path ++ "_chunk_" ++ toString i := by
  have hd : docs = buildDocs sub_code (basename path) 0 md_file := by
    simpa [pdf_2_md, eq_comm] using h
  subst hd
  constructor
  · exact buildDocs_length sub_code (basename path) md_file 0
  · intro i d hget
    rw [buildDocs_getElem?] at hget
    cases hmd : md_file[i]? with
    | none => rw [hmd] at hget; simp at hget
    | some c =>
        rw [hmd] at hget
        have hc : mdDoc sub_code (basename path) (0 + i) c = d := by simpa using hget
        rw [← hc]
        simp [mdDoc]

/-- Claim C8 witness: the second chunk of `networks.pdf` ingested under
collection `CS101` gets id `CS101_networks.pdf_chunk_1`, via
`pdf_2_md_chunk_id_format`. -/
theorem pdf_2_md_chunk_id_format_witness :
    (mdDoc "CS101" "networks.pdf" 1
        { page_content := "C2: IP addressing", page := none, type := none }).chunk_id =
      "CS101" ++ "_" ++ basename "notes/CS101/networks.pdf" ++ "_chunk_" ++ toString 1 :=
  (pdf_2_md_chunk_id_format "notes/CS101/networks.pdf" "CS101" sampleChunks sampleDocs
    (by rfl)).2 1 _ (by rfl)

/-- Claim C1 counterexample: with both the ensemble retriever and the
vector store unavailable, `get_context` returns the plain empty string —
exactly the value a successful retrieval of zero chunks produces — so the
claimed distinguishable "no retrieval available" signal does not exist. -/
theorem get_context_unavailable_equals_empty_success :
    get_context true none none = Except.ok "" ∧
    get_context true none none
      = get_context true (some (Except.ok [])) (some (Except.ok [])) :=
  ⟨rfl, rfl⟩

/-- Claim C1 (amended): when both the ensemble retriever and the vector
store are unavailable, `get_context` prints a message and silently returns
the empty string, the same value as a successful-but-empty retrieval;
callers cannot distinguish the two outcomes from the return value. -/
theorem get_context_unavailable_returns_empty_string (use_ensemble : Bool) :
    get_context use_ensemble none none = Except.ok "" ∧
    get_context true (some (Except.ok [])) none = Except.ok "" := by
  cases use_ensemble <;> exact ⟨rfl, rfl⟩

/-- Claim C2 counterexample: the context built from two retrieved chunks
with identical text contains the text twice — exact-duplicate texts are not
skipped (and hence the claimed builder contract fails). -/
theorem get_context_keeps_duplicate_chunks :
    get_context true (some (Except.ok [dupDoc, dupDoc])) none
      = Except.ok (mkContext [dupDoc, dupDoc]) ∧
    mkContext [dupDoc, dupDoc] ≠ mkContext [dupDoc] :=
  ⟨rfl, by decide⟩

/-- Claim C2 (amended): `get_context` concatenates the texts of all
retrieved chunks in rank order, formatting each as
`"\n" ++ text ++ "..." ++ "\n\n"`, with no duplicate skipping, no maximum
context length, and no count of included chunks — only the assembled string
is returned. -/
theorem get_context_concatenates_all_chunks (docs : List Doc)
    (vectorCall : Option (Except String (List Doc))) :
    get_context true (some (Except.ok docs)) vectorCall =
      Except.ok (String.join (docs.map fun d => "\n" ++ (d.page_content ++ "...") ++ "\n\n")) := by
  show Except.ok (mkContext docs) = _
  rw [mkContext_eq_join]

/-- Claim C7: if the ensemble (lexical) retrieval path raises, `get_context`
catches the exception and falls back to vector-store similarity search,
returning the context built from the vector results instead of failing the
query. -/
theorem get_context_ensemble_error_falls_back_to_vector (e : String) (docs : List Doc) :
    get_context true (some (Except.error e)) (some (Except.ok docs))
      = Except.ok (mkContext docs) :=
  rfl

/-- Claim C9: `get_context` is total at its interface — for every flag and
every outcome of the two retrieval paths it returns a string and never
propagates an exception; when both paths raise, it falls through to
returning the empty string. -/
theorem get_context_never_raises (use_ensemble : Bool)
    (ensembleCall vectorCall : Option (Except String (List Doc))) :
    (∃ s : String, get_context use_ensemble ensembleCall vectorCall = Except.ok s) ∧
    (∀ e e' : String,
      get_context use_ensemble (some (Except.error e)) (some (Except.error e'))
        = Except.ok "") := by
  constructor
  · cases use_ensemble <;>
      rcases ensembleCall with _ | (e | ds) <;>
      rcases vectorCall with _ | (e' | ds') <;>
      exact ⟨_, rfl⟩
  · intro e e'
    cases use_ensemble <;> rfl

/-- Claim C3 counterexample: running `add_to_vdb` twice with the chunks of
the same document leaves the corpus with duplicate chunk ids, so id
uniqueness does not hold after every sequence of corpus operations. -/
theorem readd_breaks_id_uniqueness :
    ¬ (corpusIds (runOps initState [RagOp.add sampleDocs, RagOp.add sampleDocs])).Nodup := by
  decide

/-- Claim C3 (amended): `add_to_vdb` appends without any deduplication, so
chunk-id uniqueness across the corpus is preserved only when the added
batch's ids are themselves distinct and disjoint from the ids already in
the corpus; re-adding an already-ingested document violates the
invariant. -/
theorem add_to_vdb_preserves_id_uniqueness_of_fresh (s : RagState) (docs : List Doc)
    (h1 : (corpusIds s).Nodup) (h2 : (docs.map Doc.chunk_id).Nodup)
    (h3 : ∀ c ∈ docs.map Doc.chunk_id, c ∉ corpusIds s) :
    (corpusIds (add_to_vdb s docs).1).Nodup := by
  have hids : corpusIds (add_to_vdb s docs).1 = corpusIds s ++ docs.map Doc.chunk_id := by
    rw [corpusIds, add_to_vdb_all_documents, List.map_append]
    rfl
  rw [hids, List.nodup_append]
  exact ⟨h1, h2, fun a ha hb => h3 a hb ha⟩

/-- Claim C3 witness: ingesting `networks.pdf` once into the fresh store
yields a corpus with pairwise-distinct chunk ids, via
`add_to_vdb_preserves_id_uniqueness_of_fresh`. -/
theorem add_to_vdb_preserves_id_uniqueness_of_fresh_witness :
    (corpusIds (add_to_vdb initState sampleDocs).1).Nodup :=
  add_to_vdb_preserves_id_uniqueness_of_fresh initState sampleDocs
    (by decide) (by decide) (by decide)

/-- Claim C4 counterexample: ingesting the chunks of the same document
twice does not yield the same corpus as ingesting them once — the second
add appends a second copy. -/
theorem double_ingestion_changes_corpus :
    (runOps initState [RagOp.add sampleDocs, RagOp.add sampleDocs]).all_documents
      ≠ (runOps initState [RagOp.add sampleDocs]).all_documents := by
  decide

/-- Claim C4 (amended): ingestion is not idempotent — chunking is
deterministic, but `add_to_vdb` blindly extends `all_documents`, so adding
the same chunk list twice leaves the corpus with two copies appended after
the previous contents. -/
theorem add_to_vdb_twice_appends_two_copies (s : RagState) (docs : List Doc) :
    (add_to_vdb (add_to_vdb s docs).1 docs).1.all_documents
      = s.all_documents ++ docs ++ docs := by
  rw [add_to_vdb_all_documents, add_to_vdb_all_documents]

/-- Claim C5 counterexample: after the first file-system operation of
`save_documents` (the truncating in-place `open("all_documents.pkl", "wb")`),
a concurrent load observes a snapshot that is neither the previous corpus
nor the new one, and the trace contains no rename of a temporary file. -/
theorem save_documents_midwrite_observable :
    runFs oldSnapshotFs ((save_documents sampleDocs).take 1) snapshot_path
      ≠ oldSnapshotFs snapshot_path ∧
    runFs oldSnapshotFs ((save_documents sampleDocs).take 1) snapshot_path
      ≠ some sampleDocs ∧
    (save_documents sampleDocs).countP isRenameOp = 0 :=
  ⟨by decide, by decide, rfl⟩

/-- Claim C5 (amended): `save_documents` writes the snapshot in place at
its final path — truncating open, write, close — using no temporary file
and no rename; immediately after the open, a concurrent load observes an
empty snapshot, and only once the write completes does the path hold the
new corpus. -/
theorem save_documents_writes_in_place (docs : List Doc)
    (fs : String → Option (List Doc)) :
    runFs fs ((save_documents docs).take 1) snapshot_path = some [] ∧
    runFs fs (save_documents docs) snapshot_path = some docs ∧
    (save_documents docs).countP isRenameOp = 0 :=
  ⟨rfl, rfl, rfl⟩

/-- Claim C6 counterexample: adding a second document's chunks to a state
that already holds `networks.pdf` embeds more than just the new chunks
(the whole corpus is re-embedded by the ensemble rebuild), and the
persisted vector store does not end up as old entries plus the new chunks
— it accumulates duplicate vectors. -/
theorem add_to_vdb_not_incremental_cex :
    (add_to_vdb stateAfterFirstAdd otherDocs).2 ≠ otherDocs ∧
    (add_to_vdb stateAfterFirstAdd otherDocs).1.vector_store
      ≠ some ⟨sampleDocs ++ otherDocs⟩ :=
  ⟨by decide, by decide⟩

/-- Claim C6 (amended): `add_to_vdb` first appends the new chunks to the
existing vector store (embedding only them), but the subsequent
`build_ensemble_retriever` call re-embeds every document of the corpus via
`Chroma.from_documents` into the same persisted collection, so each add
recomputes embeddings for the entire corpus and appends duplicate vectors
after the previously stored ones; the new chunks are retrievable in-process
because the rebuilt store contains them. -/
theorem add_to_vdb_reembeds_whole_corpus (s : RagState) (vs : VStore)
    (docs : List Doc) (hvs : s.vector_store = some vs) (hne : docs ≠ []) :
    (add_to_vdb s docs).2 = docs ++ (s.all_documents ++ docs) ∧
    (add_to_vdb s docs).1.vector_store
      = some ⟨(vs.entries ++ docs) ++ (s.all_documents ++ docs)⟩ ∧
    (add_to_vdb s docs).1.ensemble_built = true := by
  obtain ⟨ad, vst, eb⟩ := s
  simp only [RagState.vector_store] at hvs
  subst hvs
  have hne2 : ¬ (ad ++ docs).isEmpty = true := by
    rw [List.isEmpty_iff]
    intro hcontra
    exact hne (List.append_eq_nil.mp hcontra).2
  simp [add_to_vdb, build_ensemble_retriever, VStore.add_documents, hne2]

/-- Claim C6 witness: adding `routing.pdf` after `networks.pdf` embeds the
new chunk and then the entire two-document corpus again, duplicating the
stored vectors, via `add_to_vdb_reembeds_whole_corpus`. -/
theorem add_to_vdb_reembeds_whole_corpus_witness :
    (add_to_vdb stateAfterFirstAdd otherDocs).2
      = otherDocs ++ (stateAfterFirstAdd.all_documents ++ otherDocs) ∧
    (add_to_vdb stateAfterFirstAdd otherDocs).1.vector_store
      = some ⟨(sampleDocs ++ otherDocs) ++ (stateAfterFirstAdd.all_documents ++ otherDocs)⟩ ∧
    (add_to_vdb stateAfterFirstAdd otherDocs).1.ensemble_built = true :=
  add_to_vdb_reembeds_whole_corpus stateAfterFirstAdd ⟨sampleDocs⟩ otherDocs
    (by decide) (by decide)

end StudyBot
